import Mathlib

/-!
Verification of the `thoth-storages` persistence layer (harshad16/storages).

We shallowly embed the Python sources:
  * `thoth/storages/result_base.py` — `ResultStorageBase` (schema-gated
    document store over a namespaced blob store);
  * `thoth/storages/buildlogs_analyses_cache.py` — result-type constant;
  * `thoth/storages/graph/models_performance.py` — `PerformanceIndicatorBase.from_report`;
  * `thoth/storages/graph/models.py` — declared uniqueness constraints;
  * the two alembic migration scripts — index-set transformers.

Documents are JSON-like values; Python dicts become ordered association
lists keyed by strings; exceptions become an explicit error type; the
remote blob store becomes an explicit state passed through operations.
-/

namespace ThothStorages

/-- A JSON-compatible value, the shape of analysis documents. Python dicts
are ordered association lists with string keys (duplicate keys cannot occur
in a Python dict, but the representation does not forbid them). -/
inductive Json where
  | null : Json
  | bool (b : Bool) : Json
  | num (n : Int) : Json
  | str (s : String) : Json
  | arr (elems : List Json) : Json
  | obj (fields : List (String × Json)) : Json

/-- Errors of the storage layer. `schemaError` embeds `SchemaError` raised by
`ResultStorageBase.store_document` (message plus the original validation
failure as its cause); `keyError` is Python's built-in `KeyError` from a
failed dict lookup; `typeError` is Python's `TypeError` from indexing a
non-dict or from a non-string key value; `assertionError` is a failed
`assert`. Modelled from the spec: the module `thoth/storages/exceptions.py`
is not in the sources, so `notFoundError` (read of an absent key, §7) and
`malformedDocumentError` (the taxonomy's dedicated missing-identifying-field
error, §7) are taken from the spec's error taxonomy; nothing in the sources
raises `malformedDocumentError`. -/
inductive StorageError where
  | schemaError (msg cause : String) : StorageError
  | keyError (key : String) : StorageError
  | typeError : StorageError
  | notFoundError : StorageError
  | assertionError (msg : String) : StorageError
  | malformedDocumentError : StorageError
  deriving DecidableEq

/-- Python `document[key]` on a JSON value: returns the entry for `key`
when the value is a dict containing it, raises `KeyError` when the dict
lacks the key, and `TypeError` when the value is not a dict. -/
def Json.getItem : Json → String → Except StorageError Json
  | .obj fields, key =>
    match fields.find? (fun f => f.1 == key) with
    | some f => .ok f.2
    | none => .error (.keyError key)
  | _, _ => .error .typeError

/-- The remote blob store shared by all adapters: namespace and document id
identify a stored document. Modelled from the spec: the `CephStore` module
(`thoth/storages/ceph.py`) is not in the sources; per §6 the store is an
opaque namespaced key/value map with put/get/exists. -/
abbrev GlobalStore : Type := String → String → Option Json

/-- The empty blob store. -/
def emptyStore : GlobalStore := fun _ _ => none

/-- `put(namespace, key, document)`: overwrite semantics (last write wins). -/
def cephPut (g : GlobalStore) (ns key : String) (doc : Json) : GlobalStore :=
  fun ns' key' => if ns' = ns ∧ key' = key then some doc else g ns' key'

/-- Modelled from the spec: a `CephStore` session pinned to one result-type
namespace (`thoth/storages/ceph.py` is not in the sources); the first
constructor argument of `CephStore(...)` in `ResultStorageBase.__init__` is
this namespace. -/
structure CephStore where
  resultType : String

/-- `CephStore.store_document`: write the document under the adapter's
namespace and the given id. -/
def CephStore.store_document (c : CephStore) (g : GlobalStore) (doc : Json)
    (documentId : String) : GlobalStore :=
  cephPut g c.resultType documentId doc

/-- `CephStore.retrieve_document`: read under the adapter's namespace;
`notFoundError` if no blob exists at the namespaced key (spec §7). -/
def CephStore.retrieve_document (c : CephStore) (g : GlobalStore)
    (documentId : String) : Except StorageError Json :=
  match g c.resultType documentId with
  | some doc => .ok doc
  | none => .error .notFoundError

/-- `CephStore.document_exists`: pure existence check under the adapter's
namespace (spec §4.1). -/
def CephStore.document_exists (c : CephStore) (g : GlobalStore)
    (documentId : String) : Bool :=
  (g c.resultType documentId).isSome

/-- `ResultStorageBase` after a successful `__init__`: it owns one Ceph
session (`self.ceph`). -/
structure ResultStorageBase where
  ceph : CephStore

/-- `ResultStorageBase.__init__`: asserts that `RESULT_TYPE` is not `None`
and only then constructs the `CephStore` with `RESULT_TYPE` as its
namespace. A class that leaves `RESULT_TYPE = None` fails the assertion
before any store session exists. -/
def mkResultStorageBase (RESULT_TYPE : Option String) :
    Except StorageError ResultStorageBase :=
  match RESULT_TYPE with
  | none => .error (.assertionError
      "Make sure you define RESULT_TYPE in derived classes to distinguish between adapter type instances.")
  | some rt => .ok ⟨⟨rt⟩⟩

/-- `ResultStorageBase.get_document_id`: returns
`document['metadata']['hostname']`. A missing key raises `KeyError`; a
non-dict level raises `TypeError`; a non-string hostname cannot serve as a
blob-store key (the declared return type is `str`), modelled as `TypeError`. -/
def get_document_id (document : Json) : Except StorageError String :=
  match document.getItem "metadata" with
  | .error e => .error e
  | .ok meta =>
    match meta.getItem "hostname" with
    | .error e => .error e
    | .ok (.str s) => .ok s
    | .ok _ => .error .typeError

/-- `ResultStorageBase.store_document`: validate against the result schema
(wrapping any validation failure in `SchemaError` with the failure as its
cause), derive the document id, then write to Ceph and return the id. The
schema (`RESULT_SCHEMA`) is passed as a parameter — modelled from the spec:
`thoth/storages/result_schema.py` is not in the sources and §6 treats the
schema as an external pluggable predicate returning ok or a violation.
Errors leave the store unchanged: both raises happen before the Ceph call. -/
def ResultStorageBase.store_document (self : ResultStorageBase)
    (schema : Json → Except String Unit) (g : GlobalStore) (document : Json) :
    GlobalStore × Except StorageError String :=
  match schema document with
  | .error cause => (g, .error (.schemaError "Failed to validate document schema" cause))
  | .ok _ =>
    match get_document_id document with
    | .error e => (g, .error e)
    | .ok documentId => (self.ceph.store_document g document documentId, .ok documentId)

/-- `ResultStorageBase.retrieve_document`: delegate to Ceph. -/
def ResultStorageBase.retrieve_document (self : ResultStorageBase)
    (g : GlobalStore) (documentId : String) : Except StorageError Json :=
  self.ceph.retrieve_document g documentId

/-- Existence check of the document-store contract (spec §4.1), delegated to
the Ceph layer. -/
def ResultStorageBase.document_exists (self : ResultStorageBase)
    (g : GlobalStore) (documentId : String) : Bool :=
  self.ceph.document_exists g documentId

/-- `BuildLogsAnalysesCacheStore.RESULT_TYPE` from
`thoth/storages/buildlogs_analyses_cache.py`. -/
def buildLogsAnalysesCacheResultType : String := "buildlogs-analysis-cache"

/-- Python `kwargs[key] = value` on a dict represented as an ordered
association list: overwrite in place when the key is present, append
otherwise. -/
def pyDictSet (d : List (String × Json)) (key : String) (value : Json) :
    List (String × Json) :=
  if d.any (fun p => p.1 == key) then
    d.map (fun p => if p.1 == key then (key, value) else p)
  else d ++ [(key, value)]

/-- The `@result` loop of `PerformanceIndicatorBase.from_report`: for each
result entry, raise `ValueError("Collision in result name and parameter
name")` when its key is already in `kwargs`, otherwise insert it. -/
def addResultEntries (kwargs : List (String × Json)) :
    List (String × Json) → Except String (List (String × Json))
  | [] => .ok kwargs
  | (k, v) :: rest =>
    if kwargs.any (fun p => p.1 == k) then
      .error "Collision in result name and parameter name"
    else addResultEntries (pyDictSet kwargs k v) rest

/-- `PerformanceIndicatorBase.from_report` restricted to the kwargs it
builds: it copies every `job_log.stdout.@parameters` entry into `kwargs`,
then adds every `job_log.stdout.@result` entry, raising on a key collision;
on success the kwargs are handed to the model constructor (`partial_model`),
which on error is never applied. -/
def from_report (parameters results : List (String × Json)) :
    Except String (List (String × Json)) :=
  addResultEntries (parameters.foldl (fun acc p => pyDictSet acc p.1 p.2) []) results

/-- `PerformanceIndicatorBase.create_from_report` reduced to the model
construction: the partially applied `cls.get_or_create` is the continuation
`pm`; `from_report` either hands it the kwargs or propagates the collision
error without constructing any model. -/
def create_from_report {M : Type} (pm : List (String × Json) → M)
    (parameters results : List (String × Json)) : Except String M :=
  (from_report parameters results).map pm

/-! ### Relational uniqueness constraints (`graph/models.py`) -/

/-- A relational row: column name to value, `none` meaning SQL `NULL`. -/
abbrev Row : Type := String → Option Json

/-- Two rows agree on a column tuple when every column of the tuple holds
the same non-`NULL` value in both rows — the condition under which a SQL
`UNIQUE` constraint applies (`NULL`s never compare equal). -/
def rowsAgreeOn (cols : List String) (r₁ r₂ : Row) : Prop :=
  ∀ c ∈ cols, ∃ v, r₁ c = some v ∧ r₂ c = some v

/-- A table satisfies a uniqueness constraint on a column tuple when no two
of its rows agree on the tuple. -/
def satisfiesUniqueConstraint (cols : List String) (table : List Row) : Prop :=
  List.Pairwise (fun r₁ r₂ => ¬ rowsAgreeOn cols r₁ r₂) table

/-- The column tuple of the `UniqueConstraint` declared in
`PythonPackageVersion.__table_args__` (`graph/models.py`). -/
def pythonPackageVersionUniqueColumns : List String :=
  ["package_name", "package_version", "python_package_index_id",
   "os_name", "os_version", "python_version"]

/-- The column tuple of the `UniqueConstraint` declared in
`PythonPackageVersionEntity.__table_args__` (`graph/models.py`); the same
tuple also carries the unique index `python_package_version_entity_idx`. -/
def pythonPackageVersionEntityUniqueColumns : List String :=
  ["package_name", "package_version", "python_package_index_id"]

/-! ### Alembic migrations as index-set transformers -/

/-- A relational index as declared by `op.create_index`: name, table,
column tuple (in order, duplicates possible) and uniqueness flag. -/
structure IndexDef where
  name : String
  table : String
  columns : List String
  unique : Bool
  deriving DecidableEq

/-- The schema state the two migration scripts act on: the set of indexes,
kept as a list in creation order. -/
abbrev SchemaIndexes : Type := List IndexDef

/-- `op.create_index(name, table, columns, unique)`: fails when an index of
that name already exists (index names share one namespace), otherwise adds
the index. -/
def create_index (s : SchemaIndexes) (name table : String)
    (columns : List String) (unique : Bool) : Option SchemaIndexes :=
  if s.any (fun i => i.name == name) then none
  else some (s ++ [⟨name, table, columns, unique⟩])

/-- `op.drop_index(name, table_name)`: fails when no index of that name
exists, otherwise removes it (indexes are dropped by name). -/
def drop_index (s : SchemaIndexes) (name : String) : Option SchemaIndexes :=
  if s.any (fun i => i.name == name) then
    some (s.filter (fun i => !(i.name == name)))
  else none

/-- `upgrade` of migration `79e1d320db3d_create_index_for_get_depends_on_query`. -/
def upgrade_79e1d320db3d (s : SchemaIndexes) : Option SchemaIndexes :=
  create_index s "depends_on_version_id_idx" "depends_on" ["version_id"] false

/-- `downgrade` of migration `79e1d320db3d_create_index_for_get_depends_on_query`. -/
def downgrade_79e1d320db3d (s : SchemaIndexes) : Option SchemaIndexes :=
  drop_index s "depends_on_version_id_idx"

/-- One alembic operation of the two migration scripts. -/
inductive MigOp where
  | createIndex (name table : String) (columns : List String) (unique : Bool) : MigOp
  | dropIndex (name table : String) : MigOp

/-- Apply one alembic operation to the index set. -/
def applyMigOp (s : SchemaIndexes) : MigOp → Option SchemaIndexes
  | .createIndex name table columns unique => create_index s name table columns unique
  | .dropIndex name _ => drop_index s name

/-- Run a migration script (its operations in order); any failing operation
aborts the migration. -/
def runMigOps (s : SchemaIndexes) (ops : List MigOp) : Option SchemaIndexes :=
  ops.foldl (fun acc op => acc.bind (fun s => applyMigOp s op)) (some s)

/-- The operations of `upgrade` of migration
`b91c11e75551_recreate_indexes_for_python_package_`, in script order. -/
def upgrade_b91c11e75551_ops : List MigOp :=
[.createIndex "python_package_version_index_idx_00" "python_package_version" ["package_name", "package_version"] false,
  .dropIndex "python_package_version_index_idx_10" "python_package_version",
  .createIndex "python_package_version_index_idx_10" "python_package_version" ["package_name", "package_version", "os_name"] false,
  .dropIndex "python_package_version_index_idx_11" "python_package_version",
  .createIndex "python_package_version_index_idx_11" "python_package_version" ["package_name", "package_version", "os_version"] false,
  .dropIndex "python_package_version_index_idx_12" "python_package_version",
  .createIndex "python_package_version_index_idx_12" "python_package_version" ["package_name", "package_version", "python_version"] false,
  .dropIndex "python_package_version_index_idx_20" "python_package_version",
  .createIndex "python_package_version_index_idx_20" "python_package_version" ["package_name", "package_version", "os_name", "os_version"] false,
  .dropIndex "python_package_version_index_idx_21" "python_package_version",
  .createIndex "python_package_version_index_idx_21" "python_package_version" ["package_name", "package_version", "os_name", "python_version"] false,
  .dropIndex "python_package_version_index_idx_22" "python_package_version",
  .createIndex "python_package_version_index_idx_22" "python_package_version" ["package_name", "package_version", "os_version", "python_version"] false,
  .dropIndex "python_package_version_index_idx_30" "python_package_version",
  .createIndex "python_package_version_index_idx_30" "python_package_version" ["package_name", "package_version", "os_name", "os_version", "python_version"] false,
  .dropIndex "python_package_version_idx" "python_package_version",
  .dropIndex "python_package_version_index_idx_13" "python_package_version",
  .dropIndex "python_package_version_index_idx_23" "python_package_version",
  .dropIndex "python_package_version_index_idx_24" "python_package_version",
  .dropIndex "python_package_version_index_idx_25" "python_package_version",
  .dropIndex "python_package_version_index_idx_31" "python_package_version",
  .dropIndex "python_package_version_index_idx_32" "python_package_version",
  .dropIndex "python_package_version_index_idx_33" "python_package_version"]

/-- The operations of `downgrade` of migration
`b91c11e75551_recreate_indexes_for_python_package_`, in script order; note
the hard-coded column tuples, several of which list
`python_package_index_id` twice, exactly as in the script. -/
def downgrade_b91c11e75551_ops : List MigOp :=
[.createIndex "python_package_version_index_idx_33" "python_package_version" ["package_name", "package_version", "python_package_index_id", "os_name", "os_version", "python_version"] false,
  .createIndex "python_package_version_index_idx_32" "python_package_version" ["package_name", "package_version", "python_package_index_id", "python_package_index_id", "os_version", "python_version"] false,
  .createIndex "python_package_version_index_idx_31" "python_package_version" ["package_name", "package_version", "python_package_index_id", "python_package_index_id", "os_name", "python_version"] false,
  .createIndex "python_package_version_index_idx_25" "python_package_version" ["package_name", "package_version", "python_package_index_id", "os_version", "python_version"] false,
  .createIndex "python_package_version_index_idx_24" "python_package_version" ["package_name", "package_version", "python_package_index_id", "os_name", "python_version"] false,
  .createIndex "python_package_version_index_idx_23" "python_package_version" ["package_name", "package_version", "python_package_index_id", "os_name", "os_version"] false,
  .createIndex "python_package_version_index_idx_13" "python_package_version" ["package_name", "package_version", "python_package_index_id", "python_version"] false,
  .createIndex "python_package_version_idx" "python_package_version" ["package_name", "package_version", "python_package_index_id"] false,
  .dropIndex "python_package_version_index_idx_30" "python_package_version",
  .createIndex "python_package_version_index_idx_30" "python_package_version" ["package_name", "package_version", "python_package_index_id", "python_package_index_id", "os_name", "os_version"] false,
  .dropIndex "python_package_version_index_idx_22" "python_package_version",
  .createIndex "python_package_version_index_idx_22" "python_package_version" ["package_name", "package_version", "python_package_index_id", "python_package_index_id", "python_version"] false,
  .dropIndex "python_package_version_index_idx_21" "python_package_version",
  .createIndex "python_package_version_index_idx_21" "python_package_version" ["package_name", "package_version", "python_package_index_id", "python_package_index_id", "os_version"] false,
  .dropIndex "python_package_version_index_idx_20" "python_package_version",
  .createIndex "python_package_version_index_idx_20" "python_package_version" ["package_name", "package_version", "python_package_index_id", "python_package_index_id", "os_name"] false,
  .dropIndex "python_package_version_index_idx_12" "python_package_version",
  .createIndex "python_package_version_index_idx_12" "python_package_version" ["package_name", "package_version", "python_package_index_id", "os_version"] false,
  .dropIndex "python_package_version_index_idx_11" "python_package_version",
  .createIndex "python_package_version_index_idx_11" "python_package_version" ["package_name", "package_version", "python_package_index_id", "os_name"] false,
  .dropIndex "python_package_version_index_idx_10" "python_package_version",
  .createIndex "python_package_version_index_idx_10" "python_package_version" ["package_name", "package_version", "python_package_index_id", "python_package_index_id"] false,
  .dropIndex "python_package_version_index_idx_00" "python_package_version"]

/-- `upgrade` of migration `b91c11e75551_recreate_indexes_for_python_package_`. -/
def upgrade_b91c11e75551 (s : SchemaIndexes) : Option SchemaIndexes :=
  runMigOps s upgrade_b91c11e75551_ops

/-- `downgrade` of migration `b91c11e75551_recreate_indexes_for_python_package_`. -/
def downgrade_b91c11e75551 (s : SchemaIndexes) : Option SchemaIndexes :=
  runMigOps s downgrade_b91c11e75551_ops


/-- Set-equality of two index states (order of creation is not part of the
schema's index set). -/
def indexSetEqb (s₁ s₂ : SchemaIndexes) : Bool :=
  (List.all s₁ fun i => decide (i ∈ s₂)) && (List.all s₂ fun i => decide (i ∈ s₁))

/-- A migration's downgrade is the exact inverse of its upgrade: from any
state the upgrade accepts, upgrade followed by downgrade restores the
index set. -/
def migrationInverts (up down : SchemaIndexes → Option SchemaIndexes) : Prop :=
  ∀ s s', up s = some s' → ∃ s'', down s' = some s'' ∧ indexSetEqb s'' s = true

/-- Run an upgrade then the downgrade on a concrete state and check the
index set is restored (`false` when either step fails). -/
def upThenDownRestores (up down : SchemaIndexes → Option SchemaIndexes)
    (s : SchemaIndexes) : Bool :=
  match up s with
  | none => false
  | some s' =>
    match down s' with
    | none => false
    | some s'' => indexSetEqb s'' s

/-! ### Concrete instances used by the theorems -/

/-- The example document of the spec's scenario:
`{"metadata": {"hostname": "pod-abc123"}}`. -/
def docPod : Json := .obj [("metadata", .obj [("hostname", .str "pod-abc123")])]

/-- A schema requiring only `metadata.hostname` (a string), as in the
spec's example scenario. -/
def schemaHostnameOnly : Json → Except String Unit := fun d =>
  match get_document_id d with
  | .ok _ => .ok ()
  | .error _ => .error "missing metadata.hostname"

/-- A schema accepting every document. -/
def passAllSchema : Json → Except String Unit := fun _ => .ok ()

/-- A schema rejecting every document. -/
def rejectAllSchema : Json → Except String Unit := fun _ => .error "rejected"

/-- A general-purpose result adapter instance. -/
def sampleAdapter : ResultStorageBase := ⟨⟨"result"⟩⟩

/-- The build-log analyses cache adapter: its namespace is its
`RESULT_TYPE`, `"buildlogs-analysis-cache"`. -/
def buildLogsCacheAdapter : ResultStorageBase :=
  ⟨⟨buildLogsAnalysesCacheResultType⟩⟩

/-- The schema state migration `b91c11e75551` is meant to run on: exactly
the indexes its `downgrade` recreates (including the duplicated
`python_package_index_id` columns the script hard-codes). -/
def preB91 : SchemaIndexes :=
  downgrade_b91c11e75551_ops.filterMap (fun op =>
    match op with
    | .createIndex n t c u => some ⟨n, t, c, u⟩
    | .dropIndex _ _ => none)

/-- A schema state that migration `b91c11e75551`'s upgrade accepts but
whose `python_package_version_index_idx_33` has a column tuple different
from the one the downgrade hard-codes. -/
def badStateB91 : SchemaIndexes :=
  preB91.map (fun i =>
    if i.name == "python_package_version_index_idx_33" then
      ⟨i.name, i.table, [], false⟩
    else i)

/-! ### Helper lemmas -/

theorem cephPut_cephPut_same (g : GlobalStore) (ns key : String) (doc : Json) :
    cephPut (cephPut g ns key doc) ns key doc = cephPut g ns key doc := by
  funext ns' key'
  by_cases h : ns' = ns ∧ key' = key <;> simp [cephPut, h]

theorem cephPut_other_ns (g : GlobalStore) (ns key : String) (doc : Json)
    (ns' key' : String) (hne : ns' ≠ ns) :
    cephPut g ns key doc ns' key' = g ns' key' := by
  simp only [cephPut]
  exact if_neg (fun hc => hne hc.1)

theorem indexSetEqb_refl (s : SchemaIndexes) : indexSetEqb s s = true := by
  simp [indexSetEqb, List.all_eq_true]

theorem filter_keep_of_any_eq_false {α : Type} (l : List α) (p : α → Bool)
    (h : l.any p = false) : l.filter (fun x => !(p x)) = l := by
  refine List.filter_eq_self.mpr (fun a ha => ?_)
  have := List.any_eq_false.mp h a ha
  simp [this]

theorem pyDictSet_append (d : List (String × Json)) (key : String) (value : Json)
    (h : d.any (fun p => p.1 == key) = false) :
    pyDictSet d key value = d ++ [(key, value)] := by
  simp [pyDictSet, h]

theorem foldl_pyDictSet_eq_append (params : List (String × Json)) :
    ∀ acc, (∀ p ∈ params, acc.any (fun q => q.1 == p.1) = false) →
    (params.map Prod.fst).Nodup →
    params.foldl (fun a p => pyDictSet a p.1 p.2) acc = acc ++ params := by
  induction params with
  | nil => intro acc _ _; simp
  | cons hd tl ih =>
    obtain ⟨k, v⟩ := hd
    intro acc hacc hnd
    have h1 : acc.any (fun q => q.1 == k) = false := hacc (k, v) (by simp)
    have hnd' : (tl.map Prod.fst).Nodup := (List.nodup_cons.mp (by simpa using hnd)).2
    have hknotin : k ∉ tl.map Prod.fst := (List.nodup_cons.mp (by simpa using hnd)).1
    have hacc' : ∀ p ∈ tl, (acc ++ [(k, v)]).any (fun q => q.1 == p.1) = false := by
      intro p hp
      rw [List.any_append]
      have ha : acc.any (fun q => q.1 == p.1) = false := hacc p (List.mem_cons_of_mem _ hp)
      have hne : k ≠ p.1 := fun h => hknotin (h ▸ List.mem_map.mpr ⟨p, hp, rfl⟩)
      simp [ha, hne]
    rw [List.foldl_cons]
    rw [show pyDictSet acc (k, v).1 (k, v).2 = acc ++ [(k, v)] from pyDictSet_append acc k v h1]
    rw [ih (acc ++ [(k, v)]) hacc' hnd', List.append_assoc]
    rfl

theorem addResultEntries_ok (results : List (String × Json)) :
    ∀ kwargs, (∀ p ∈ results, kwargs.any (fun q => q.1 == p.1) = false) →
    (results.map Prod.fst).Nodup →
    addResultEntries kwargs results = .ok (kwargs ++ results) := by
  induction results with
  | nil => intro kwargs _ _; simp [addResultEntries]
  | cons hd tl ih =>
    obtain ⟨k, v⟩ := hd
    intro kwargs hdisj hnd
    have h1 : kwargs.any (fun q => q.1 == k) = false := hdisj (k, v) (by simp)
    have hnd' : (tl.map Prod.fst).Nodup := (List.nodup_cons.mp (by simpa using hnd)).2
    have hknotin : k ∉ tl.map Prod.fst := (List.nodup_cons.mp (by simpa using hnd)).1
    have hdisj' : ∀ p ∈ tl, (kwargs ++ [(k, v)]).any (fun q => q.1 == p.1) = false := by
      intro p hp
      rw [List.any_append]
      have ha : kwargs.any (fun q => q.1 == p.1) = false := hdisj p (List.mem_cons_of_mem _ hp)
      have hne : k ≠ p.1 := fun h => hknotin (h ▸ List.mem_map.mpr ⟨p, hp, rfl⟩)
      simp [ha, hne]
    rw [addResultEntries, if_neg (by simp [h1]), pyDictSet_append kwargs k v h1,
      ih (kwargs ++ [(k, v)]) hdisj' hnd', List.append_assoc]
    rfl

theorem addResultEntries_error (results : List (String × Json)) :
    ∀ kwargs, (∃ p ∈ results, kwargs.any (fun q => q.1 == p.1) = true) →
    addResultEntries kwargs results = .error "Collision in result name and parameter name" := by
  induction results with
  | nil =>
    rintro kwargs ⟨p, hp, _⟩
    exact absurd hp (List.not_mem_nil p)
  | cons hd tl ih =>
    obtain ⟨k, v⟩ := hd
    rintro kwargs ⟨p, hp, hcol⟩
    by_cases hk : kwargs.any (fun q => q.1 == k) = true
    · rw [addResultEntries, if_pos (by simp [hk])]
    · have hkf : kwargs.any (fun q => q.1 == k) = false := Bool.eq_false_iff.mpr hk
      rw [addResultEntries, if_neg (by simp [hkf])]
      apply ih
      rcases List.mem_cons.mp hp with heq | htl
      · rw [heq] at hcol
        exact absurd hcol hk
      · refine ⟨p, htl, ?_⟩
        rw [pyDictSet_append kwargs k v hkf, List.any_append]
        simp [hcol]

theorem from_report_eq_addResultEntries (parameters results : List (String × Json))
    (hp : (parameters.map Prod.fst).Nodup) :
    from_report parameters results = addResultEntries parameters results := by
  unfold from_report
  rw [foldl_pyDictSet_eq_append parameters [] (by simp) hp, List.nil_append]

/-! ### Claims -/

/-- C1: for every document failing the schema predicate, `store_document`
raises `SchemaError` carrying the original validation failure as its cause,
and the blob store is left unchanged — the error is raised before any
write, so no key is created or updated. -/
theorem store_document_schema_gate (a : ResultStorageBase)
    (schema : Json → Except String Unit) (g : GlobalStore) (d : Json) (cause : String)
    (h : schema d = .error cause) :
    a.store_document schema g d =
      (g, .error (.schemaError "Failed to validate document schema" cause)) := by
  simp [ResultStorageBase.store_document, h]

/-- Witness for C1 at a concrete rejecting schema and document. -/
theorem store_document_schema_gate_witness :
    rejectAllSchema Json.null = .error "rejected" ∧
    sampleAdapter.store_document rejectAllSchema emptyStore Json.null =
      (emptyStore, .error (.schemaError "Failed to validate document schema" "rejected")) :=
  ⟨rfl, store_document_schema_gate sampleAdapter rejectAllSchema emptyStore Json.null
    "rejected" rfl⟩

/-- C2: document-id derivation is a pure, deterministic function of the
document alone — equal documents give equal ids, and the id returned by
`store_document` does not depend on the blob store's contents. -/
theorem get_document_id_deterministic (d₁ d₂ : Json) (h : d₁ = d₂) :
    get_document_id d₁ = get_document_id d₂ ∧
    ∀ (a : ResultStorageBase) (schema : Json → Except String Unit) (g g' : GlobalStore),
      (a.store_document schema g d₁).2 = (a.store_document schema g' d₁).2 := by
  subst h
  refine ⟨rfl, fun a schema g g' => ?_⟩
  cases hs : schema d₁ with
  | error c => simp [ResultStorageBase.store_document, hs]
  | ok u => cases hid : get_document_id d₁ <;>
      simp [ResultStorageBase.store_document, hs, hid]

/-- Witness for C2 at the example document. -/
theorem get_document_id_deterministic_witness :
    docPod = docPod ∧
    (get_document_id docPod = get_document_id docPod ∧
     ∀ (a : ResultStorageBase) (schema : Json → Except String Unit) (g g' : GlobalStore),
       (a.store_document schema g docPod).2 = (a.store_document schema g' docPod).2) :=
  ⟨rfl, get_document_id_deterministic docPod docPod rfl⟩

/-- C3 counterexample: for the empty document under a schema accepting
everything, `store_document` fails with Python's `KeyError` from the raw
`document['metadata']` lookup — not with the taxonomy's dedicated
`MalformedDocumentError` (nothing in the sources raises it). -/
theorem missing_hostname_raises_keyError_not_malformed :
    sampleAdapter.store_document passAllSchema emptyStore (Json.obj []) =
      (emptyStore, .error (.keyError "metadata")) ∧
    StorageError.keyError "metadata" ≠ StorageError.malformedDocumentError :=
  ⟨rfl, by decide⟩

/-- C3 amended: for every document that passes schema validation but whose
`metadata.hostname` lookup fails, `store_document` fails with that lookup's
error (an uncaught `KeyError`/`TypeError`, not a dedicated
`MalformedDocumentError`), raised before any write to the blob store. -/
theorem store_document_missing_field_fails_before_write (a : ResultStorageBase)
    (schema : Json → Except String Unit) (g : GlobalStore) (d : Json) (e : StorageError)
    (hs : schema d = .ok ()) (hid : get_document_id d = .error e) :
    a.store_document schema g d = (g, .error e) := by
  simp [ResultStorageBase.store_document, hs, hid]

/-- Witness for the amended C3 at the empty document. -/
theorem store_document_missing_field_fails_before_write_witness :
    passAllSchema (Json.obj []) = .ok () ∧
    get_document_id (Json.obj []) = .error (.keyError "metadata") ∧
    sampleAdapter.store_document passAllSchema emptyStore (Json.obj []) =
      (emptyStore, .error (.keyError "metadata")) :=
  ⟨rfl, rfl, store_document_missing_field_fails_before_write sampleAdapter passAllSchema
    emptyStore (Json.obj []) (.keyError "metadata") rfl rfl⟩

/-- C4: `store_document` is idempotent for identical documents — if a call
succeeds with id `i` and store `g₁`, calling it again on `g₁` returns the
same id and leaves the store content-equal at every key (the second call
overwrites the same namespaced key with the same content). -/
theorem store_document_idempotent (a : ResultStorageBase)
    (schema : Json → Except String Unit) (g g₁ : GlobalStore) (d : Json) (i : String)
    (h : a.store_document schema g d = (g₁, .ok i)) :
    a.store_document schema g₁ d = (g₁, .ok i) := by
  cases hs : schema d with
  | error c => simp [ResultStorageBase.store_document, hs] at h
  | ok u =>
    cases hid : get_document_id d with
    | error e => simp [ResultStorageBase.store_document, hs, hid] at h
    | ok j =>
      simp only [ResultStorageBase.store_document, CephStore.store_document, hs, hid] at h ⊢
      rw [Prod.mk.injEq] at h
      obtain ⟨hg, he⟩ := h
      injection he with hji
      subst hji
      subst hg
      rw [Prod.mk.injEq]
      exact ⟨cephPut_cephPut_same g a.ceph.resultType j d, rfl⟩

/-- Witness for C4 at the example document. -/
theorem store_document_idempotent_witness :
    sampleAdapter.store_document schemaHostnameOnly emptyStore docPod =
      (cephPut emptyStore "result" "pod-abc123" docPod, .ok "pod-abc123") ∧
    sampleAdapter.store_document schemaHostnameOnly
        (cephPut emptyStore "result" "pod-abc123" docPod) docPod =
      (cephPut emptyStore "result" "pod-abc123" docPod, .ok "pod-abc123") :=
  ⟨rfl, store_document_idempotent sampleAdapter schemaHostnameOnly emptyStore
    (cephPut emptyStore "result" "pod-abc123" docPod) docPod "pod-abc123" rfl⟩

/-- C5: for every valid document whose `metadata.hostname` field is a
string `h`, `store_document` returns exactly `h` as the document id; and in
the spec's concrete scenario (`{"metadata": {"hostname": "pod-abc123"}}`
under a schema requiring only `metadata.hostname`) it returns
`"pod-abc123"`, after which the document exists and retrieves back
unchanged. -/
theorem store_document_returns_hostname_id (a : ResultStorageBase)
    (schema : Json → Except String Unit) (g : GlobalStore) (d meta : Json) (h : String)
    (hs : schema d = .ok ()) (hm : d.getItem "metadata" = .ok meta)
    (hh : meta.getItem "hostname" = .ok (.str h)) :
    (a.store_document schema g d).2 = .ok h ∧
    (sampleAdapter.store_document schemaHostnameOnly emptyStore docPod).2 = .ok "pod-abc123" ∧
    sampleAdapter.document_exists
      (sampleAdapter.store_document schemaHostnameOnly emptyStore docPod).1 "pod-abc123" = true ∧
    sampleAdapter.retrieve_document
      (sampleAdapter.store_document schemaHostnameOnly emptyStore docPod).1 "pod-abc123" =
      .ok docPod := by
  refine ⟨?_, rfl, rfl, rfl⟩
  have hid : get_document_id d = .ok h := by simp [get_document_id, hm, hh]
  simp [ResultStorageBase.store_document, hs, hid]

/-- Witness for C5 at the example document. -/
theorem store_document_returns_hostname_id_witness :
    schemaHostnameOnly docPod = .ok () ∧
    docPod.getItem "metadata" = .ok (.obj [("hostname", .str "pod-abc123")]) ∧
    (Json.obj [("hostname", .str "pod-abc123")]).getItem "hostname" =
      .ok (.str "pod-abc123") ∧
    (sampleAdapter.store_document schemaHostnameOnly emptyStore docPod).2 =
      .ok "pod-abc123" :=
  ⟨rfl, rfl, rfl,
    (store_document_returns_hostname_id sampleAdapter schemaHostnameOnly emptyStore docPod
      (.obj [("hostname", .str "pod-abc123")]) "pod-abc123" rfl rfl rfl).1⟩

/-- C6: namespace isolation — a document written through an adapter with
one result type is invisible to `document_exists` and `retrieve_document`
of an adapter with a different result type on the same shared store: both
observe exactly what they observed before the write. -/
theorem result_type_namespace_isolation (a b : ResultStorageBase)
    (h : a.ceph.resultType ≠ b.ceph.resultType) (g : GlobalStore) (doc : Json)
    (i i' : String) :
    b.document_exists (a.ceph.store_document g doc i) i' = b.document_exists g i' ∧
    b.retrieve_document (a.ceph.store_document g doc i) i' = b.retrieve_document g i' := by
  have hput : cephPut g a.ceph.resultType i doc b.ceph.resultType i' =
      g b.ceph.resultType i' :=
    cephPut_other_ns g a.ceph.resultType i doc b.ceph.resultType i' (fun hc => h hc.symm)
  constructor
  · simp [ResultStorageBase.document_exists, CephStore.document_exists,
      CephStore.store_document, hput]
  · simp [ResultStorageBase.retrieve_document, CephStore.retrieve_document,
      CephStore.store_document, hput]

/-- Witness for C6: the build-log cache adapter and the sample adapter
share the store but have different result types. -/
theorem result_type_namespace_isolation_witness :
    buildLogsCacheAdapter.ceph.resultType ≠ sampleAdapter.ceph.resultType ∧
    (sampleAdapter.document_exists
        (buildLogsCacheAdapter.ceph.store_document emptyStore docPod "pod-abc123")
        "pod-abc123" =
      sampleAdapter.document_exists emptyStore "pod-abc123" ∧
     sampleAdapter.retrieve_document
        (buildLogsCacheAdapter.ceph.store_document emptyStore docPod "pod-abc123")
        "pod-abc123" =
      sampleAdapter.retrieve_document emptyStore "pod-abc123") :=
  ⟨by decide,
    result_type_namespace_isolation buildLogsCacheAdapter sampleAdapter (by decide)
      emptyStore docPod "pod-abc123" "pod-abc123"⟩

/-- C10: constructing an adapter whose class leaves `RESULT_TYPE` unset
(`None`) fails with the assertion error before any store session exists;
every successfully constructed adapter has a non-`None` `RESULT_TYPE`,
which is the namespace passed to the underlying Ceph store. -/
theorem result_type_assertion_guard :
    mkResultStorageBase none = .error (.assertionError
      "Make sure you define RESULT_TYPE in derived classes to distinguish between adapter type instances.") ∧
    ∀ (rt : Option String) (a : ResultStorageBase), mkResultStorageBase rt = .ok a →
      ∃ s, rt = some s ∧ a.ceph.resultType = s := by
  refine ⟨rfl, fun rt a h => ?_⟩
  cases rt with
  | none => simp [mkResultStorageBase] at h
  | some s =>
    refine ⟨s, rfl, ?_⟩
    simp only [mkResultStorageBase] at h
    injection h with h2
    rw [← h2]

/-- Witness for C10 at the build-log cache's result type. -/
theorem result_type_assertion_guard_witness :
    mkResultStorageBase (some buildLogsAnalysesCacheResultType) =
      .ok ⟨⟨buildLogsAnalysesCacheResultType⟩⟩ ∧
    ∃ s, some buildLogsAnalysesCacheResultType = some s ∧
      (ResultStorageBase.mk ⟨buildLogsAnalysesCacheResultType⟩).ceph.resultType = s :=
  ⟨rfl, result_type_assertion_guard.2 (some buildLogsAnalysesCacheResultType)
    ⟨⟨buildLogsAnalysesCacheResultType⟩⟩ rfl⟩

/-- C7: `from_report` builds the model's keyword arguments as the union of
the `@parameters` and `@result` entries (parameters first), and raises the
collision `ValueError` if and only if some key occurs in both; on error the
kwargs are never handed to the model constructor. -/
theorem from_report_collision_iff (parameters results : List (String × Json))
    (hp : (parameters.map Prod.fst).Nodup) (hr : (results.map Prod.fst).Nodup) :
    (from_report parameters results = .error "Collision in result name and parameter name"
      ↔ ∃ k, k ∈ parameters.map Prod.fst ∧ k ∈ results.map Prod.fst)
    ∧ ((¬ ∃ k, k ∈ parameters.map Prod.fst ∧ k ∈ results.map Prod.fst) →
      from_report parameters results = .ok (parameters ++ results)) := by
  have hb : ∀ p : String × Json, p ∈ results →
      ((parameters.any fun q => q.1 == p.1) = true ↔ p.1 ∈ parameters.map Prod.fst) := by
    intro p _
    rw [List.any_eq_true]
    constructor
    · rintro ⟨q, hq, hbeq⟩
      exact List.mem_map.mpr ⟨q, hq, by simpa using hbeq⟩
    · intro hmem
      obtain ⟨q, hq, hfst⟩ := List.mem_map.mp hmem
      exact ⟨q, hq, by simp [hfst]⟩
  have hdisjOf : (¬ ∃ k, k ∈ parameters.map Prod.fst ∧ k ∈ results.map Prod.fst) →
      ∀ p ∈ results, (parameters.any fun q => q.1 == p.1) = false := by
    intro hno p hp'
    rcases Bool.eq_false_or_eq_true (parameters.any fun q => q.1 == p.1) with ht | hf
    · exact absurd ⟨p.1, (hb p hp').mp ht, List.mem_map.mpr ⟨p, hp', rfl⟩⟩ hno
    · exact hf
  constructor
  · constructor
    · intro herr
      by_contra hno
      rw [from_report_eq_addResultEntries parameters results hp,
        addResultEntries_ok results parameters (hdisjOf hno) hr] at herr
      simp at herr
    · rintro ⟨k, hkp, hkr⟩
      rw [from_report_eq_addResultEntries parameters results hp]
      obtain ⟨p, hp', hfst⟩ := List.mem_map.mp hkr
      exact addResultEntries_error results parameters
        ⟨p, hp', (hb p hp').mpr (by rw [hfst]; exact hkp)⟩
  · intro hno
    rw [from_report_eq_addResultEntries parameters results hp]
    exact addResultEntries_ok results parameters (hdisjOf hno) hr

/-- Witness for C7 at a one-parameter, one-result report. -/
theorem from_report_collision_iff_witness :
    (([("device", Json.str "cpu")] : List (String × Json)).map Prod.fst).Nodup ∧
    (([("rate", Json.num 5)] : List (String × Json)).map Prod.fst).Nodup ∧
    ((from_report [("device", Json.str "cpu")] [("rate", Json.num 5)] =
        .error "Collision in result name and parameter name"
      ↔ ∃ k, k ∈ ([("device", Json.str "cpu")] : List (String × Json)).map Prod.fst ∧
          k ∈ ([("rate", Json.num 5)] : List (String × Json)).map Prod.fst)
    ∧ ((¬ ∃ k, k ∈ ([("device", Json.str "cpu")] : List (String × Json)).map Prod.fst ∧
          k ∈ ([("rate", Json.num 5)] : List (String × Json)).map Prod.fst) →
      from_report [("device", Json.str "cpu")] [("rate", Json.num 5)] =
        .ok ([("device", Json.str "cpu")] ++ [("rate", Json.num 5)]))) :=
  ⟨by simp, by simp,
    from_report_collision_iff [("device", Json.str "cpu")] [("rate", Json.num 5)]
      (by simp) (by simp)⟩

/-- C8: the relational schema's de-duplication keys — the
`python_package_version` table declares a uniqueness constraint on exactly
`(package_name, package_version, python_package_index_id, os_name,
os_version, python_version)` and `python_package_version_entity` on exactly
`(package_name, package_version, python_package_index_id)`, and a table
satisfying such a constraint has no two rows agreeing on the tuple. -/
theorem dedup_unique_constraints :
    pythonPackageVersionUniqueColumns =
      ["package_name", "package_version", "python_package_index_id",
       "os_name", "os_version", "python_version"] ∧
    pythonPackageVersionEntityUniqueColumns =
      ["package_name", "package_version", "python_package_index_id"] ∧
    (∀ t : List Row, satisfiesUniqueConstraint pythonPackageVersionUniqueColumns t →
      ∀ i j : Fin t.length, i < j →
        ¬ rowsAgreeOn pythonPackageVersionUniqueColumns (t.get i) (t.get j)) ∧
    (∀ t : List Row, satisfiesUniqueConstraint pythonPackageVersionEntityUniqueColumns t →
      ∀ i j : Fin t.length, i < j →
        ¬ rowsAgreeOn pythonPackageVersionEntityUniqueColumns (t.get i) (t.get j)) := by
  refine ⟨rfl, rfl, ?_, ?_⟩ <;>
    exact fun t ht i j hij => (List.pairwise_iff_get.mp ht) i j hij

/-- Witness for C8 at a one-row table. -/
theorem dedup_unique_constraints_witness :
    satisfiesUniqueConstraint pythonPackageVersionUniqueColumns [fun _ => none] ∧
    ∀ i j : Fin ([fun _ => none] : List Row).length, i < j →
      ¬ rowsAgreeOn pythonPackageVersionUniqueColumns
        (([fun _ => none] : List Row).get i) (([fun _ => none] : List Row).get j) :=
  ⟨by simp [satisfiesUniqueConstraint],
    dedup_unique_constraints.2.2.1 [fun _ => none] (by simp [satisfiesUniqueConstraint])⟩

/-- C9 counterexample: it is not the case that both migration scripts'
downgrades are exact inverses of their upgrades. Migration `b91c11e75551`
fails on `badStateB91`: its upgrade drops indexes by name only, and its
downgrade recreates them with hard-coded column tuples, so a pre-state
whose `python_package_version_index_idx_33` has a different column tuple is
not restored. -/
theorem migration_downgrade_not_exact_inverse :
    ¬ (migrationInverts upgrade_79e1d320db3d downgrade_79e1d320db3d ∧
       migrationInverts upgrade_b91c11e75551 downgrade_b91c11e75551) := by
  rintro ⟨-, hB⟩
  have hup : (upgrade_b91c11e75551 badStateB91).isSome = true := by decide
  obtain ⟨s', hs'⟩ := Option.isSome_iff_exists.mp hup
  obtain ⟨s'', hdown, heq⟩ := hB badStateB91 s' hs'
  have hfalse : upThenDownRestores upgrade_b91c11e75551 downgrade_b91c11e75551
      badStateB91 = false := by decide
  simp only [upThenDownRestores, hs', hdown] at hfalse
  rw [heq] at hfalse
  cases hfalse

/-- C9 corrected: migration `79e1d320db3d`'s downgrade is the exact inverse
of its upgrade on every state the upgrade accepts; migration
`b91c11e75551`'s upgrade followed by its downgrade restores the index set
on the intended pre-state `preB91` — the state whose indexes carry exactly
the column tuples the downgrade hard-codes — but not on other accepted
pre-states, whose dropped column tuples are replaced by the hard-coded
ones. -/
theorem migration_downgrade_restores :
    migrationInverts upgrade_79e1d320db3d downgrade_79e1d320db3d ∧
    upThenDownRestores upgrade_b91c11e75551 downgrade_b91c11e75551 preB91 = true := by
  constructor
  · intro s s' h
    unfold upgrade_79e1d320db3d create_index at h
    by_cases hc : (s.any fun i => i.name == "depends_on_version_id_idx") = true
    · rw [if_pos hc] at h
      cases h
    · have hcf : (s.any fun i => i.name == "depends_on_version_id_idx") = false :=
        Bool.eq_false_iff.mpr hc
      rw [if_neg hc] at h
      injection h with h1
      refine ⟨s, ?_, indexSetEqb_refl s⟩
      unfold downgrade_79e1d320db3d drop_index
      rw [← h1]
      have hany : ((s ++ [⟨"depends_on_version_id_idx", "depends_on", ["version_id"], false⟩] :
          SchemaIndexes).any fun i => i.name == "depends_on_version_id_idx") = true := by
        rw [List.any_append]
        simp
      rw [if_pos hany, List.filter_append, filter_keep_of_any_eq_false s _ hcf]
      simp
  · decide

/-- Witness for the corrected C9: migration `79e1d320db3d` run from the
empty index set. -/
theorem migration_downgrade_restores_witness :
    upgrade_79e1d320db3d [] =
      some [⟨"depends_on_version_id_idx", "depends_on", ["version_id"], false⟩] ∧
    ∃ s'', downgrade_79e1d320db3d
        [⟨"depends_on_version_id_idx", "depends_on", ["version_id"], false⟩] = some s'' ∧
      indexSetEqb s'' [] = true :=
  ⟨rfl, migration_downgrade_restores.1 []
    [⟨"depends_on_version_id_idx", "depends_on", ["version_id"], false⟩] rfl⟩

end ThothStorages
